import Mathlib

/-!
Verification of the portfolio-backend contact-submission pipeline
(`POST /api/contact` handler in `server.js`, explicit-configuration
version).

Text is modelled as a sequence of UTF-16 units, one `Char` per unit
(`Str := List Char`); JavaScript's `String.prototype.substring`,
`trim`, `toLowerCase` and the email regular expression all operate on
such sequences.  The Express request body, the environment variables,
the nodemailer transporter and the wall clock are external inputs and
are passed to the handler explicitly.
-/

namespace PortfolioBackend

/-- A piece of text: a list of UTF-16 units. -/
abbrev Str := List Char

/-- Turn a Lean string literal into a `Str`. -/
def lit (s : String) : Str := s.toList

/-- JavaScript whitespace (`\s` in a regular expression, and the set
removed by `String.prototype.trim`): space, tab, line terminators and
the Unicode space separators. -/
def jsIsSpace (c : Char) : Bool :=
  c = ' ' || c = '\t' || c = '\n' || c = '\x0b' || c = '\x0c' || c = '\r' ||
  c = '\u00a0' || c = '\u1680' || ('\u2000' ≤ c && c ≤ '\u200a') ||
  c = '\u2028' || c = '\u2029' || c = '\u202f' || c = '\u205f' ||
  c = '\u3000' || c = '\ufeff'

/-- `String.prototype.trim`: drop leading and trailing whitespace. -/
def jsTrim (s : Str) : Str :=
  ((s.dropWhile jsIsSpace).reverse.dropWhile jsIsSpace).reverse

/-- The default full lowercase mapping of one UTF-16 unit, as applied
by `String.prototype.toLowerCase`: `A`–`Z` map to `a`–`z`, and U+0130
(`İ`, the only code point whose default lowercase mapping has more than
one unit) expands to `i` followed by U+0307 (combining dot above).
Remaining units are kept unchanged; the one-to-one non-ASCII mappings
(such as `À`→`à`) are modelled as the identity — they change neither
lengths nor the whitespace/`@`/`.` structure that sanitization and the
shape check depend on. -/
def jsLowerChar (c : Char) : Str :=
  if c = '\u0130' then ['i', '\u0307'] else [Char.toLower c]

/-- `String.prototype.toLowerCase` over a whole string: concatenate the
per-unit lowercase mappings (this is length-increasing exactly on
strings containing U+0130). -/
def jsToLower (s : Str) : Str := s.flatMap jsLowerChar

/-- A character admitted by the class `[^\s@]` of the email regular
expression: neither whitespace nor `@`. -/
def isEmailChar (c : Char) : Bool := !jsIsSpace c && c != '@'

/-- `emailRegex.test`, the anchored pattern `^[^\s@]+@[^\s@]+\.[^\s@]+$`:
a non-empty run of non-space non-`@` units, one `@`, then a remainder of
non-space non-`@` units containing a `.` that is neither its first nor
its last unit (the class `[^\s@]` admits `.`, so the two domain runs may
themselves contain dots; backtracking makes any interior dot acceptable). -/
def emailRegexTest (s : Str) : Bool :=
  let loc := s.takeWhile isEmailChar
  match s.dropWhile isEmailChar with
  | a :: domain =>
      a = '@' && !loc.isEmpty && !domain.isEmpty && domain.all isEmailChar &&
        ((domain.drop 1).dropLast.contains '.')
  | [] => false

/-- The raw request body `{fullname, email, message}` after JSON
parsing: each field either absent or a string. -/
structure RawSubmission where
  fullname : Option Str
  email : Option Str
  message : Option Str
deriving Repr, DecidableEq

/-- JavaScript truthiness of an optional string: `undefined` and the
empty string are falsy, every other string is truthy. -/
def truthy : Option Str → Bool
  | none => false
  | some s => !s.isEmpty

/-- The environment-sourced configuration the handler reads:
`EMAIL_USER`, `EMAIL_PASS`, `SITE_NAME`, `EMAIL_FROM` (each possibly
unset). `EMAIL_HOST`/`EMAIL_PORT` only shape the external transporter
and are not modelled. -/
structure Config where
  emailUser : Option Str
  emailPass : Option Str
  siteName : Option Str
  emailFrom : Option Str
deriving Repr, DecidableEq

/-- `process.env[varName]` for the required variable names. -/
def envVar (cfg : Config) (n : String) : Option Str :=
  if n = "EMAIL_USER" then cfg.emailUser
  else if n = "EMAIL_PASS" then cfg.emailPass
  else if n = "SITE_NAME" then cfg.siteName
  else if n = "EMAIL_FROM" then cfg.emailFrom
  else none

/-- `requiredEnvVars` from the handler. -/
def requiredEnvVars : List String :=
  ["EMAIL_USER", "EMAIL_PASS", "SITE_NAME", "EMAIL_FROM"]

/-- `requiredEnvVars.filter(varName => !process.env[varName])`. -/
def missingVars (cfg : Config) : List String :=
  requiredEnvVars.filter fun n => !truthy (envVar cfg n)

/-- A validated submission: the three fields as plain strings. -/
structure Submission where
  fullname : Str
  email : Str
  message : Str
deriving Repr, DecidableEq

/-- The `sanitizedData` object: `fullname.trim().substring(0, 100)`,
`email.trim().toLowerCase().substring(0, 100)`,
`message.trim().substring(0, 1000)`. -/
def sanitizedData (s : Submission) : Submission :=
  { fullname := (jsTrim s.fullname).take 100
    email := (jsToLower (jsTrim s.email)).take 100
    message := (jsTrim s.message).take 1000 }

/-- `fullname.split(' ')[0]`: the prefix up to the first space. -/
def splitFirst (s : Str) : Str := s.takeWhile (· != ' ')

/-- Error classes reported by the nodemailer transporter: `EAUTH`,
`ECONNECTION`, or anything else. -/
inductive TransportError where
  | eauth
  | econnection
  | other
deriving Repr, DecidableEq

/-- The external mail transporter: outcome of `transporter.verify()`
and of `transporter.sendMail(...)` (the latter returning a message id
on success). -/
structure Transport where
  verifyResult : Except TransportError Unit
  sendResult : Except TransportError Str

/-- One JSON response: HTTP status, the `success` flag, and the text of
the `message` field (when `success` is `true`) or of the `error` field
(when it is `false`). -/
structure Response where
  status : Nat
  success : Bool
  body : Str
deriving Repr, DecidableEq

/-- The composed outbound message `mailOptions`
(`{from, to, subject, html, text}`; `from` is a keyword in Lean, so the
first two fields are named `fromAddr`/`toAddr`). -/
structure MailOptions where
  fromAddr : Str
  toAddr : Str
  subject : Str
  html : Str
  text : Str
deriving Repr, DecidableEq

/-- Which calls the handler made on the transporter, and the mail
options handed to `sendMail` when it was called. -/
structure CallLog where
  verifyCalled : Bool
  sendCalled : Bool
  sent : Option MailOptions
deriving Repr, DecidableEq

/-- Static text of the html email template (chunk 0), verbatim from the source. -/
def htmlChunk0 : Str := lit "\n        <!DOCTYPE html>\n        <html lang=\"en\">\n        <head>\n          <meta charset=\"UTF-8\">\n          <meta name=\"viewport\" content=\"width=device-width, initial-scale=1.0\">\n          <title>New Contact Form Submission</title>\n        </head>\n        <body style=\"margin: 0; padding: 0; background-color: #f7fafc; font-family: -apple-system, BlinkMacSystemFont, \x27Segoe UI\x27, Roboto, \x27Helvetica Neue\x27, Arial, sans-serif; line-height: 1.6;\">\n          <div style=\"max-width: 600px; margin: 32px auto; background-color: #ffffff; border-radius: 16px; box-shadow: 0 10px 40px rgba(0, 0, 0, 0.06), 0 2px 8px rgba(0, 0, 0, 0.04); overflow: hidden; border: 1px solid #e2e8f0;\">\n\n            <!-- Header -->\n            <div style=\"background: linear-gradient(135deg, #ffdb70 0%, #ffd93d 100%); padding: 40px; text-align: center; border-left: 6px solid #f59e0b; position: relative;\">\n              <h1 style=\"margin: 0; color: #1a202c; font-size: 28px; font-weight: 700; letter-spacing: -0.8px; line-height: 1.2;\">\n                New Contact\n              </h1>\n              <p style=\"margin: 12px 0 0 0; color: #2d3748; font-size: 15px; font-weight: 500; opacity: 0.8;\">\n                "

/-- Static text of the html email template (chunk 1), verbatim from the source. -/
def htmlChunk1 : Str := lit "\n              </p>\n            </div>\n\n            <!-- Content -->\n            <div style=\"padding: 40px;\">\n\n              <!-- Contact Info Card -->\n              <div style=\"background: linear-gradient(135deg, #fffbf0 0%, #fef7e0 100%); border: 1px solid #fed7aa; border-radius: 16px; padding: 32px; margin-bottom: 32px; border-left: 5px solid #ffdb70; box-shadow: 0 2px 8px rgba(255, 219, 112, 0.1);\">\n                <table cellpadding=\"0\" cellspacing=\"0\" border=\"0\" style=\"width: 100%;\">\n                  <tr>\n                    <td style=\"text-align: left; vertical-align: top;\">\n                      <h2 style=\"margin: 0 0 12px 0; color: #1a202c; font-size: 24px; font-weight: 700; font-family: -apple-system, BlinkMacSystemFont, \x27Segoe UI\x27, Arial, sans-serif; line-height: 1.2; letter-spacing: -0.5px;\">\n                        "

/-- Static text of the html email template (chunk 2), verbatim from the source. -/
def htmlChunk2 : Str := lit "\n                      </h2>\n                      <div style=\"background-color: #ffffff; border: 1px solid #e2e8f0; border-radius: 8px; padding: 12px 16px; display: inline-block; box-shadow: 0 1px 3px rgba(0, 0, 0, 0.05);\">\n                        <table cellpadding=\"0\" cellspacing=\"0\" border=\"0\">\n                          <tr>\n                            <td style=\"vertical-align: middle; padding-right: 8px;\">\n                              <div style=\"width: 16px; height: 16px; background-color: #ffdb70; border-radius: 3px; display: inline-block; text-align: center; line-height: 16px;\">\n                                <span style=\"font-size: 10px; color: #1a202c; font-weight: 600;\">@</span>\n                              </div>\n                            </td>\n                            <td style=\"vertical-align: middle;\">\n                              <a href=\"mailto:"

/-- Static text of the html email template (chunk 3), verbatim from the source. -/
def htmlChunk3 : Str := lit "\" style=\"color: #3182ce; text-decoration: none; font-size: 15px; font-weight: 500; font-family: -apple-system, BlinkMacSystemFont, \x27Segoe UI\x27, Arial, sans-serif;\">\n                                "

/-- Static text of the html email template (chunk 4), verbatim from the source. -/
def htmlChunk4 : Str := lit "\n                              </a>\n                            </td>\n                          </tr>\n                        </table>\n                      </div>\n                    </td>\n                  </tr>\n                </table>\n              </div>\n\n              <!-- Message Content -->\n              <div style=\"margin-bottom: 36px;\">\n                <div style=\"margin-bottom: 16px;\">\n                  <h3 style=\"margin: 0; color: #1a202c; font-size: 18px; font-weight: 600; font-family: -apple-system, BlinkMacSystemFont, \x27Segoe UI\x27, Arial, sans-serif; letter-spacing: -0.3px;\">\n                    Message\n                  </h3>\n                </div>\n                <div style=\"background-color: #f8fafc; border: 1px solid #e2e8f0; border-radius: 12px; padding: 28px; position: relative;\">\n                  <div style=\"position: absolute; top: 0; left: 0; width: 4px; height: 100%; background: linear-gradient(180deg, #ffdb70 0%, #ffd93d 100%); border-radius: 2px 0 0 2px;\"></div>\n                  <p style=\"margin: 0; color: #2d3748; font-size: 16px; line-height: 1.7; font-family: -apple-system, BlinkMacSystemFont, \x27Segoe UI\x27, \x27Roboto\x27, \x27Helvetica Neue\x27, Arial, sans-serif; letter-spacing: 0.01em; word-wrap: break-word; white-space: pre-wrap; font-weight: 400;\">\n                    "

/-- Static text of the html email template (chunk 5), verbatim from the source. -/
def htmlChunk5 : Str := lit "\n                  </p>\n                </div>\n              </div>\n\n              <!-- Quick Actions -->\n              <div style=\"text-align: center; margin-bottom: 32px;\">\n                <a href=\"mailto:"

/-- Static text of the html email template (chunk 6), verbatim from the source. -/
def htmlChunk6 : Str := lit "?subject=Re: Your message to "

/-- Static text of the html email template (chunk 7), verbatim from the source. -/
def htmlChunk7 : Str := lit "\"\n                   style=\"display: inline-block; background: linear-gradient(135deg, #ffdb70 0%, #ffd93d 100%); color: #1a202c; text-decoration: none; padding: 14px 28px; border-radius: 8px; font-weight: 600; font-size: 15px; font-family: -apple-system, BlinkMacSystemFont, \x27Segoe UI\x27, Arial, sans-serif; box-shadow: 0 4px 12px rgba(255, 219, 112, 0.3); border: 1px solid #fed7aa;\">\n                  Reply to "

/-- Static text of the html email template (chunk 8), verbatim from the source. -/
def htmlChunk8 : Str := lit "\n                </a>\n              </div>\n\n            </div>\n\n            <!-- Footer -->\n            <div style=\"background: linear-gradient(135deg, #f8fafc 0%, #f1f5f9 100%); padding: 24px 40px; border-top: 1px solid #e2e8f0;\">\n              <div style=\"text-align: center;\">\n                <div style=\"display: inline-block; background-color: #ffffff; border: 1px solid #e2e8f0; border-radius: 6px; padding: 8px 12px; margin-bottom: 8px;\">\n                  <p style=\"margin: 0; color: #4a5568; font-size: 13px; font-weight: 500; font-family: -apple-system, BlinkMacSystemFont, \x27Segoe UI\x27, Arial, sans-serif;\">\n                    "

/-- Static text of the html email template (chunk 9), verbatim from the source. -/
def htmlChunk9 : Str := lit "\n                  </p>\n                </div>\n                <p style=\"margin: 0; color: #718096; font-size: 12px; font-family: -apple-system, BlinkMacSystemFont, \x27Segoe UI\x27, Arial, sans-serif;\">\n                  Sent via "

/-- Static text of the html email template (chunk 10), verbatim from the source. -/
def htmlChunk10 : Str := lit " Contact Form\n                </p>\n              </div>\n            </div>\n\n          </div>\n        </body>\n        </html>\n      "

/-- The `html` field of `mailOptions`: the template literal with the
sanitized fields, `SITE_NAME` and the formatted current date
interpolated.  `dateHtml` stands for
`new Date().toLocaleDateString('en-US', {...})`, a value of the wall
clock, not of the inputs. -/
def htmlBody (d : Submission) (siteName dateHtml : Str) : Str :=
  htmlChunk0 ++ siteName ++ htmlChunk1 ++ d.fullname ++ htmlChunk2 ++
  d.email ++ htmlChunk3 ++ d.email ++ htmlChunk4 ++ d.message ++
  htmlChunk5 ++ d.email ++ htmlChunk6 ++ siteName ++ htmlChunk7 ++
  splitFirst d.fullname ++ htmlChunk8 ++ dateHtml ++ htmlChunk9 ++
  siteName ++ htmlChunk10

/-- The `text` field of `mailOptions`.  `dateText` stands for
`new Date().toLocaleString()`, a value of the wall clock. -/
def textBody (d : Submission) (dateText : Str) : Str :=
  lit "\nNew Contact Form Submission\n\nName: " ++ d.fullname ++
  lit "\nEmail: " ++ d.email ++ lit "\n\nMessage:\n" ++ d.message ++
  lit "\n\nSubmitted on: " ++ dateText ++ lit "\n      "

/-- The `mailOptions` object composed from the sanitized data and the
configuration (plus the two clock readings interpolated into the
bodies). -/
def mailOptions (d : Submission) (cfg : Config) (dateHtml dateText : Str) :
    MailOptions :=
  { fromAddr := lit "\"" ++ cfg.siteName.getD [] ++ lit " Contact Form\" <" ++
      cfg.emailFrom.getD [] ++ lit ">"
    toAddr := cfg.emailUser.getD []
    subject := lit "New Contact - " ++ d.fullname
    html := htmlBody d (cfg.siteName.getD []) dateHtml
    text := textBody d dateText }

/-- The response bodies the handler can produce. -/
def configErrorResponse : Response :=
  { status := 500, success := false
    body := lit "Server configuration error. Please contact the administrator." }

/-- HTTP 400 response for a missing field. -/
def missingFieldsResponse : Response :=
  { status := 400, success := false, body := lit "All fields are required" }

/-- HTTP 400 response for an email failing the shape check. -/
def invalidEmailResponse : Response :=
  { status := 400, success := false
    body := lit "Please provide a valid email address" }

/-- HTTP 500 response when `transporter.verify()` throws. -/
def verifyFailedResponse : Response :=
  { status := 500, success := false
    body := lit "Email service is currently unavailable. Please try again later." }

/-- HTTP 200 success response. -/
def successResponse : Response :=
  { status := 200, success := true
    body := lit "Your message has been sent successfully!" }

/-- The catch block: map the error thrown by `sendMail` to a response
by its `code` (`EAUTH`, `ECONNECTION`, generic otherwise). -/
def sendErrorResponse : TransportError → Response
  | .eauth =>
      { status := 500, success := false
        body := lit "Email authentication failed. Please contact the administrator." }
  | .econnection =>
      { status := 500, success := false
        body := lit "Unable to connect to email service. Please try again later." }
  | .other =>
      { status := 500, success := false
        body := lit "Failed to send message. Please try again later." }

/-- The `POST /api/contact` handler, step by step as in the source:
missing-environment check, field presence check, email shape check on
the raw `email`, sanitization, `transporter.verify()`, composition of
`mailOptions`, `transporter.sendMail(...)`.  Returns the JSON response
together with the record of transporter calls. -/
def handleContact (cfg : Config) (body : RawSubmission) (tr : Transport)
    (dateHtml dateText : Str) : Response × CallLog :=
  if (missingVars cfg).length > 0 then
    (configErrorResponse, ⟨false, false, none⟩)
  else if !truthy body.fullname || !truthy body.email || !truthy body.message then
    (missingFieldsResponse, ⟨false, false, none⟩)
  else
    let fullname := body.fullname.getD []
    let email := body.email.getD []
    let message := body.message.getD []
    if !emailRegexTest email then
      (invalidEmailResponse, ⟨false, false, none⟩)
    else
      let sanitized := sanitizedData ⟨fullname, email, message⟩
      match tr.verifyResult with
      | .error _ => (verifyFailedResponse, ⟨true, false, none⟩)
      | .ok _ =>
          let mail := mailOptions sanitized cfg dateHtml dateText
          match tr.sendResult with
          | .ok _ => (successResponse, ⟨true, true, some mail⟩)
          | .error e => (sendErrorResponse e, ⟨true, true, some mail⟩)

/-- The destructured `{ fullname, email, message }` of a request body
that passed the presence check (absent fields default to the empty
string; the check guarantees they are present and non-empty). -/
def submissionOf (body : RawSubmission) : Submission :=
  ⟨body.fullname.getD [], body.email.getD [], body.message.getD []⟩

/-- A fully populated configuration used in concrete checks. -/
def cfgOk : Config :=
  ⟨some (lit "owner@example.com"), some (lit "hunter2"),
   some (lit "My Site"), some (lit "noreply@example.com")⟩

/-- A transporter whose `verify()` and `sendMail` both succeed. -/
def trOk : Transport := ⟨.ok (), .ok (lit "msgid-1")⟩

/-- A transporter whose `verify()` fails. -/
def trVerifyFail : Transport := ⟨.error .econnection, .ok (lit "msgid-1")⟩

end PortfolioBackend

/-! ### Character-level lemmas -/

namespace PortfolioBackend

/-- Two characters are equal exactly when their code points are. -/
theorem char_eq_iff {a b : Char} : a = b ↔ a.toNat = b.toNat :=
  ⟨fun h => by rw [h], fun h => Char.ext (UInt32.toNat.inj h)⟩

/-- Character order compares code points. -/
theorem char_le_iff {a b : Char} : a ≤ b ↔ a.toNat ≤ b.toNat := Char.le_def

/-- `Char.ofNat` of a value below the surrogate range keeps its code point. -/
theorem char_toNat_ofNat {n : Nat} (h1 : n < 0xd800) : (Char.ofNat n).toNat = n := by
  rw [Char.ofNat, dif_pos (Or.inl h1), Char.ofNatAux, Char.toNat]
  simp [UInt32.ofNat', UInt32.toNat]

/-- The code point of `Char.toLower`. -/
theorem toNat_toLower (c : Char) :
    (Char.toLower c).toNat =
      if c.toNat ≥ 65 ∧ c.toNat ≤ 90 then c.toNat + 32 else c.toNat := by
  simp only [Char.toLower]
  split
  · next h => exact char_toNat_ofNat (by omega)
  · rfl

/-- No character with code point in `[33, 159]` is JavaScript whitespace. -/
theorem jsIsSpace_eq_false_of_range {c : Char} (h1 : 33 ≤ c.toNat) (h2 : c.toNat ≤ 159) :
    jsIsSpace c = false := by
  rw [← Bool.not_eq_true]
  intro hc
  simp only [jsIsSpace, Bool.or_eq_true, Bool.and_eq_true, decide_eq_true_eq] at hc
  simp only [char_eq_iff, char_le_iff,
    show (' ' : Char).toNat = 32 from rfl, show ('\t' : Char).toNat = 9 from rfl,
    show ('\n' : Char).toNat = 10 from rfl, show ('\x0b' : Char).toNat = 11 from rfl,
    show ('\x0c' : Char).toNat = 12 from rfl, show ('\r' : Char).toNat = 13 from rfl,
    show ('\u00a0' : Char).toNat = 160 from rfl,
    show ('\u1680' : Char).toNat = 5760 from rfl,
    show ('\u2000' : Char).toNat = 8192 from rfl,
    show ('\u200a' : Char).toNat = 8202 from rfl,
    show ('\u2028' : Char).toNat = 8232 from rfl,
    show ('\u2029' : Char).toNat = 8233 from rfl,
    show ('\u202f' : Char).toNat = 8239 from rfl,
    show ('\u205f' : Char).toNat = 8287 from rfl,
    show ('\u3000' : Char).toNat = 12288 from rfl,
    show ('\ufeff' : Char).toNat = 65279 from rfl] at hc
  omega

/-- Lower-casing does not change whether a character is whitespace. -/
theorem jsIsSpace_toLower (c : Char) : jsIsSpace (Char.toLower c) = jsIsSpace c := by
  have h1 := toNat_toLower c
  by_cases h : c.toNat ≥ 65 ∧ c.toNat ≤ 90
  · rw [if_pos h] at h1
    rw [jsIsSpace_eq_false_of_range (c := Char.toLower c) (by omega) (by omega),
      jsIsSpace_eq_false_of_range (by omega) (by omega)]
  · rw [if_neg h] at h1
    rw [char_eq_iff.mpr h1]

/-- Lower-casing does not change whether a character is admitted by
`[^\s@]`. -/
theorem isEmailChar_toLower (c : Char) :
    isEmailChar (Char.toLower c) = isEmailChar c := by
  unfold isEmailChar
  rw [jsIsSpace_toLower]
  have h1 := toNat_toLower c
  by_cases h : c.toNat ≥ 65 ∧ c.toNat ≤ 90
  · rw [if_pos h] at h1
    have e : ('@' : Char).toNat = 64 := rfl
    have hA : Char.toLower c ≠ '@' := by rw [Ne, char_eq_iff, h1, e]; omega
    have hB : c ≠ '@' := by rw [Ne, char_eq_iff, e]; omega
    rw [Bool.eq_iff_iff]
    simp [hA, hB]
  · rw [if_neg h] at h1
    rw [char_eq_iff.mpr h1]

/-- ASCII lower-casing is idempotent. -/
theorem toLower_toLower (c : Char) :
    Char.toLower (Char.toLower c) = Char.toLower c := by
  have h1 := toNat_toLower c
  by_cases h : c.toNat ≥ 65 ∧ c.toNat ≤ 90
  · rw [if_pos h] at h1
    rw [char_eq_iff, toNat_toLower, h1, if_neg (by omega)]
  · rw [if_neg h] at h1
    rw [char_eq_iff, toNat_toLower, h1, if_neg h]

end PortfolioBackend

/-! ### Trim and regex lemmas -/

namespace PortfolioBackend

/-- `jsTrim` written with `List.rdropWhile`. -/
theorem jsTrim_eq_rdropWhile (s : Str) :
    jsTrim s = List.rdropWhile jsIsSpace (s.dropWhile jsIsSpace) := rfl

/-- Dropping a satisfied-by-nothing prefix is the identity. -/
theorem dropWhile_eq_self_of_all (p : Char → Bool) (s : Str)
    (h : ∀ c ∈ s, p c = false) : s.dropWhile p = s := by
  cases s with
  | nil => rfl
  | cons a l =>
      rw [List.dropWhile_cons, h a (List.mem_cons_self a l)]
      simp

/-- Trimming a string with no whitespace at all is the identity. -/
theorem jsTrim_eq_self_of_no_space (s : Str)
    (h : ∀ c ∈ s, jsIsSpace c = false) : jsTrim s = s := by
  unfold jsTrim
  rw [dropWhile_eq_self_of_all _ _ h,
    dropWhile_eq_self_of_all _ _ (fun c hc => h c (List.mem_reverse.mp hc)),
    List.reverse_reverse]

/-- A string containing a non-whitespace character trims to a non-empty
string. -/
theorem jsTrim_ne_nil (s : Str) (h : ∃ c ∈ s, jsIsSpace c = false) :
    jsTrim s ≠ [] := by
  rw [jsTrim_eq_rdropWhile]
  intro hnil
  rw [List.rdropWhile_eq_nil_iff] at hnil
  obtain ⟨c, hc, hcf⟩ := h
  have hmem : c ∈ s.dropWhile jsIsSpace := by
    have hsplit := List.takeWhile_append_dropWhile jsIsSpace s
    rcases List.mem_append.mp (by rw [hsplit]; exact hc) with h1 | h2
    · have := List.mem_takeWhile_imp h1
      rw [hcf] at this
      exact absurd this (by simp)
    · exact h2
  have := hnil c hmem
  rw [hcf] at this
  exact Bool.false_ne_true this

/-- A trimmed string has no whitespace left to drop at the front. -/
theorem jsTrim_dropWhile_self (s : Str) :
    (jsTrim s).dropWhile jsIsSpace = jsTrim s := by
    cases ht : jsTrim s with
    | nil => rfl
    | cons a t =>
        have ha : jsIsSpace a = false := by
          rw [jsTrim_eq_rdropWhile] at ht
          obtain ⟨r, hr⟩ := List.rdropWhile_prefix jsIsSpace (s.dropWhile jsIsSpace)
          rw [ht] at hr
          have hda : s.dropWhile jsIsSpace = a :: (t ++ r) := by
            rw [← hr]
            rfl
          have hw : s.dropWhile jsIsSpace ≠ [] := by rw [hda]; simp
          have hhead := List.head_dropWhile_not jsIsSpace s hw
          simpa [hda] using hhead
        rw [List.dropWhile_cons, ha]
        simp

/-- A trimmed string has no whitespace left to drop at the back. -/
theorem jsTrim_rdropWhile_self (s : Str) :
    List.rdropWhile jsIsSpace (jsTrim s) = jsTrim s := by
  rw [jsTrim_eq_rdropWhile]
  exact List.rdropWhile_idempotent _ _

/-- `jsTrim` is idempotent. -/
theorem jsTrim_idem (s : Str) : jsTrim (jsTrim s) = jsTrim s := by
  have hdw := jsTrim_dropWhile_self s
  calc jsTrim (jsTrim s)
      = List.rdropWhile jsIsSpace ((jsTrim s).dropWhile jsIsSpace) := rfl
    _ = List.rdropWhile jsIsSpace (jsTrim s) := by rw [hdw]
    _ = List.rdropWhile jsIsSpace
          (List.rdropWhile jsIsSpace (s.dropWhile jsIsSpace)) := by
        rw [jsTrim_eq_rdropWhile]
    _ = List.rdropWhile jsIsSpace (s.dropWhile jsIsSpace) :=
        List.rdropWhile_idempotent _ _
    _ = jsTrim s := (jsTrim_eq_rdropWhile s).symm

end PortfolioBackend

namespace PortfolioBackend

/-- Unfolding of a successful `emailRegexTest`: a non-empty local part,
the `@`, and a domain of admissible units with an interior dot. -/
theorem emailRegexTest_eq_true_iff {s : Str} : emailRegexTest s = true ↔
    s.takeWhile isEmailChar ≠ [] ∧
    ∃ domain, s.dropWhile isEmailChar = '@' :: domain ∧ domain ≠ [] ∧
      (∀ c ∈ domain, isEmailChar c = true) ∧ '.' ∈ (domain.drop 1).dropLast := by
  unfold emailRegexTest
  cases hdw : s.dropWhile isEmailChar with
  | nil => simp
  | cons a domain =>
      simp only [Bool.and_eq_true, decide_eq_true_eq, List.all_eq_true]
      constructor
      · rintro ⟨⟨⟨⟨ha, hloc⟩, hdne⟩, hall⟩, hdot⟩
        subst ha
        refine ⟨by simpa using hloc, domain, rfl, by simpa using hdne, hall, ?_⟩
        simpa [List.elem_iff] using hdot
      · rintro ⟨hloc, domain2, hd2, hdne, hall, hdot⟩
        obtain ⟨rfl, rfl⟩ : a = '@' ∧ domain2 = domain := by
          injection hd2 with h1 h2
          exact ⟨h1, h2.symm⟩
        refine ⟨⟨⟨⟨rfl, by simpa using hloc⟩, by simpa using hdne⟩, hall⟩, ?_⟩
        simpa [List.elem_iff] using hdot

end PortfolioBackend

namespace PortfolioBackend

/-- A string accepted by the email shape check contains no whitespace
(the regular expression forbids `\s` everywhere). -/
theorem emailRegexTest_no_space {s : Str} (h : emailRegexTest s = true) :
    ∀ c ∈ s, jsIsSpace c = false := by
  rw [emailRegexTest_eq_true_iff] at h
  obtain ⟨hloc, domain, hdw, hdne, hall, hdot⟩ := h
  intro c hc
  have hsplit := List.takeWhile_append_dropWhile isEmailChar s
  rcases List.mem_append.mp (by rw [hsplit]; exact hc) with h1 | h2
  · have h3 := List.mem_takeWhile_imp h1
    simp only [isEmailChar, Bool.and_eq_true, Bool.not_eq_eq_eq_not,
      Bool.not_true] at h3
    exact h3.1
  · rw [hdw] at h2
    rcases List.mem_cons.mp h2 with rfl | h3
    · decide
    · have h4 := hall c h3
      simp only [isEmailChar, Bool.and_eq_true, Bool.not_eq_eq_eq_not,
        Bool.not_true] at h4
      exact h4.1

/-- A string accepted by the email shape check is non-empty. -/
theorem emailRegexTest_ne_nil {s : Str} (h : emailRegexTest s = true) :
    s ≠ [] := by
  rw [emailRegexTest_eq_true_iff] at h
  obtain ⟨hloc, domain, hdw, _⟩ := h
  intro hs
  subst hs
  simp at hdw

end PortfolioBackend


/-! ### Lower-casing lemmas -/

namespace PortfolioBackend

/-- The per-unit lowercase mapping never returns the empty string. -/
theorem jsLowerChar_ne_nil (c : Char) : jsLowerChar c ≠ [] := by
  unfold jsLowerChar
  split <;> simp

/-- A unit that is neither an ASCII capital nor U+0130 is fixed by the
lowercase mapping. -/
theorem jsLowerChar_eq_self {c : Char} (h1 : ¬(c.toNat ≥ 65 ∧ c.toNat ≤ 90))
    (h2 : c ≠ '\u0130') : jsLowerChar c = [c] := by
  unfold jsLowerChar
  rw [if_neg h2]
  have hfix : Char.toLower c = c := char_eq_iff.mpr (by rw [toNat_toLower, if_neg h1])
  rw [hfix]

/-- Whitespace is fixed by the lowercase mapping. -/
theorem jsLowerChar_space {c : Char} (h : jsIsSpace c = true) :
    jsLowerChar c = [c] := by
  apply jsLowerChar_eq_self
  · intro hr
    have hf := jsIsSpace_eq_false_of_range (c := c) (by omega) (by omega)
    rw [h] at hf
    exact Bool.noConfusion hf
  · rintro rfl
    exact absurd h (by decide)

/-- The lowercase mapping of a non-whitespace unit contains no
whitespace. -/
theorem jsLowerChar_not_space {c : Char} (h : jsIsSpace c = false) :
    ∀ b ∈ jsLowerChar c, jsIsSpace b = false := by
  unfold jsLowerChar
  split
  · intro b hb
    rcases List.mem_cons.mp hb with rfl | hb2
    · decide
    · rcases List.mem_singleton.mp hb2 with rfl
      decide
  · intro b hb
    rcases List.mem_singleton.mp hb with rfl
    rw [jsIsSpace_toLower]
    exact h

/-- The lowercase mapping of a `[^\s@]` unit stays within `[^\s@]`. -/
theorem jsLowerChar_email {c : Char} (h : isEmailChar c = true) :
    ∀ b ∈ jsLowerChar c, isEmailChar b = true := by
  unfold jsLowerChar
  split
  · intro b hb
    rcases List.mem_cons.mp hb with rfl | hb2
    · decide
    · rcases List.mem_singleton.mp hb2 with rfl
      decide
  · intro b hb
    rcases List.mem_singleton.mp hb with rfl
    rw [isEmailChar_toLower]
    exact h

/-- A unit outside `[^\s@]` (whitespace or `@`) is fixed by the
lowercase mapping. -/
theorem jsLowerChar_not_email {c : Char} (h : isEmailChar c = false) :
    jsLowerChar c = [c] := by
  have hc : jsIsSpace c = true ∨ c = '@' := by
    by_cases hs : jsIsSpace c = true
    · exact Or.inl hs
    · right
      have hs2 : jsIsSpace c = false := by
        cases hq : jsIsSpace c
        · rfl
        · exact absurd hq hs
      unfold isEmailChar at h
      rw [hs2] at h
      simp at h
      exact h
  rcases hc with hs | rfl
  · exact jsLowerChar_space hs
  · decide

/-- Every unit produced by the lowercase mapping is itself fixed by it. -/
theorem jsLowerChar_fix (c : Char) : ∀ b ∈ jsLowerChar c, jsLowerChar b = [b] := by
  unfold jsLowerChar
  split
  · intro b hb
    rcases List.mem_cons.mp hb with rfl | hb2
    · decide
    · rcases List.mem_singleton.mp hb2 with rfl
      decide
  · next hni =>
      intro b hb
      rcases List.mem_singleton.mp hb with rfl
      have hne : Char.toLower c ≠ '\u0130' := by
        intro hEq
        have h1 := toNat_toLower c
        have h2 : (Char.toLower c).toNat = 304 := by rw [hEq]; decide
        rw [h2] at h1
        by_cases hcr : c.toNat ≥ 65 ∧ c.toNat ≤ 90
        · rw [if_pos hcr] at h1
          omega
        · rw [if_neg hcr] at h1
          refine hni (char_eq_iff.mpr ?_)
          rw [show ('\u0130' : Char).toNat = 304 from rfl]
          omega
      show jsLowerChar (Char.toLower c) = [Char.toLower c]
      unfold jsLowerChar
      rw [if_neg hne, toLower_toLower]

/-- Flattening a map whose images are all singletons of their source is
the identity. -/
theorem flatMap_eq_self_of_fix (f : Char → Str) (l : Str)
    (h : ∀ c ∈ l, f c = [c]) : l.flatMap f = l := by
  induction l with
  | nil => rfl
  | cons a t ih =>
      show f a ++ t.flatMap f = a :: t
      rw [h a (List.mem_cons_self a t),
        ih fun c hc => h c (List.mem_cons_of_mem _ hc)]
      rfl

/-- `jsToLower` is idempotent (each unit it produces is a fixpoint of
the mapping). -/
theorem jsToLower_idem (s : Str) : jsToLower (jsToLower s) = jsToLower s := by
  unfold jsToLower
  induction s with
  | nil => rfl
  | cons c t ih =>
      show (jsLowerChar c ++ t.flatMap jsLowerChar).flatMap jsLowerChar = _
      rw [List.flatMap_append, flatMap_eq_self_of_fix _ _ (jsLowerChar_fix c), ih]
      rfl

/-- `jsToLower` of a non-empty string is non-empty. -/
theorem jsToLower_ne_nil {s : Str} (h : s ≠ []) : jsToLower s ≠ [] := by
  cases s with
  | nil => exact absurd rfl h
  | cons c t =>
      show jsLowerChar c ++ t.flatMap jsLowerChar ≠ []
      simp [jsLowerChar_ne_nil c]

/-- Dropping across an all-satisfying prefix. -/
theorem dropWhile_append_of_all (p : Char → Bool) (l1 l2 : Str)
    (h : ∀ x ∈ l1, p x = true) : (l1 ++ l2).dropWhile p = l2.dropWhile p := by
  induction l1 with
  | nil => rfl
  | cons a t ih =>
      rw [List.cons_append, List.dropWhile_cons, h a (by simp)]
      exact ih fun x hx => h x (by simp [hx])

/-- Taking across an all-satisfying prefix. -/
theorem takeWhile_append_of_all (p : Char → Bool) (l1 l2 : Str)
    (h : ∀ x ∈ l1, p x = true) : (l1 ++ l2).takeWhile p = l1 ++ l2.takeWhile p := by
  induction l1 with
  | nil => rfl
  | cons a t ih =>
      rw [List.cons_append, List.takeWhile_cons, h a (by simp)]
      simp only [if_true, List.cons_append]
      rw [ih fun x hx => h x (by simp [hx])]

/-- `dropWhile` commutes with a flat map whose images respect the
predicate (satisfied units map to satisfied runs, unsatisfied units are
fixed). -/
theorem dropWhile_flatMap (p : Char → Bool) (f : Char → Str) (s : Str)
    (hT : ∀ c, p c = true → ∀ b ∈ f c, p b = true)
    (hF : ∀ c, p c = false → f c = [c]) :
    (s.flatMap f).dropWhile p = (s.dropWhile p).flatMap f := by
  induction s with
  | nil => rfl
  | cons c t ih =>
      cases hc : p c with
      | true =>
          rw [show (c :: t).flatMap f = f c ++ t.flatMap f from rfl,
            dropWhile_append_of_all p _ _ (hT c hc), ih,
            List.dropWhile_cons, hc, if_pos rfl]
      | false =>
          rw [show (c :: t).flatMap f = f c ++ t.flatMap f from rfl, hF c hc,
            List.singleton_append, List.dropWhile_cons, hc, List.dropWhile_cons, hc]
          simp [hF c hc]

/-- `takeWhile` commutes with a flat map whose images respect the
predicate. -/
theorem takeWhile_flatMap (p : Char → Bool) (f : Char → Str) (s : Str)
    (hT : ∀ c, p c = true → ∀ b ∈ f c, p b = true)
    (hF : ∀ c, p c = false → f c = [c]) :
    (s.flatMap f).takeWhile p = (s.takeWhile p).flatMap f := by
  induction s with
  | nil => rfl
  | cons c t ih =>
      cases hc : p c with
      | true =>
          rw [show (c :: t).flatMap f = f c ++ t.flatMap f from rfl,
            takeWhile_append_of_all p _ _ (hT c hc), ih,
            List.takeWhile_cons, hc, if_pos rfl]
          rfl
      | false =>
          rw [show (c :: t).flatMap f = f c ++ t.flatMap f from rfl, hF c hc,
            List.singleton_append, List.takeWhile_cons, hc, List.takeWhile_cons, hc]
          simp

/-- A dot flanked by non-empty runs sits in the interior of the list. -/
theorem mem_interior_intro (A B : Str) (hA : A ≠ []) (hB : B ≠ []) :
    '.' ∈ ((A ++ '.' :: B).drop 1).dropLast := by
  cases A with
  | nil => exact absurd rfl hA
  | cons a A2 =>
      cases B with
      | nil => exact absurd rfl hB
      | cons b B2 =>
          rw [List.cons_append, List.drop_succ_cons, List.drop_zero,
            List.dropLast_append_of_ne_nil _ (by simp),
            List.dropLast_cons_of_ne_nil (by simp)]
          simp

/-- A dot in the interior of a list splits it into non-empty runs
around the dot. -/
theorem mem_interior_elim (l : Str) (h : '.' ∈ (l.drop 1).dropLast) :
    ∃ A B, l = A ++ '.' :: B ∧ A ≠ [] ∧ B ≠ [] := by
  cases l with
  | nil => simp at h
  | cons d0 rest =>
      rw [List.drop_succ_cons, List.drop_zero] at h
      have hrne : rest ≠ [] := by
        rintro rfl
        simp at h
      obtain ⟨s, t, hst⟩ := List.mem_iff_append.mp h
      have hr : rest = s ++ '.' :: (t ++ [rest.getLast hrne]) := by
        conv_lhs => rw [← List.dropLast_concat_getLast hrne]
        rw [hst]
        simp
      exact ⟨d0 :: s, t ++ [rest.getLast hrne], by rw [List.cons_append, ← hr],
        by simp, by simp⟩

/-- Lower-casing a string that is already trimmed leaves it trimmed. -/
theorem jsTrim_jsToLower_self (u : Str) (h1 : u.dropWhile jsIsSpace = u)
    (h2 : List.rdropWhile jsIsSpace u = u) :
    jsTrim (jsToLower u) = jsToLower u := by
  have hfront : (jsToLower u).dropWhile jsIsSpace = jsToLower u := by
    cases u with
    | nil => rfl
    | cons a t =>
        have ha : jsIsSpace a = false := by
          cases hjs : jsIsSpace a with
          | false => rfl
          | true =>
              exfalso
              rw [List.dropWhile_cons, hjs, if_pos rfl] at h1
              have hlen := congrArg List.length h1
              have hle := (List.dropWhile_suffix (l := t) jsIsSpace).length_le
              simp at hlen
              omega
        cases hba : jsLowerChar a with
        | nil => exact absurd hba (jsLowerChar_ne_nil a)
        | cons b bs =>
            have hb : jsIsSpace b = false :=
              jsLowerChar_not_space ha b (by rw [hba]; simp)
            show (jsLowerChar a ++ t.flatMap jsLowerChar).dropWhile jsIsSpace = _
            rw [hba, List.cons_append, List.dropWhile_cons, hb]
            simp only [Bool.false_eq_true, if_false]
            rw [show jsToLower (a :: t) = jsLowerChar a ++ t.flatMap jsLowerChar from rfl,
              hba, List.cons_append]
  have hback : List.rdropWhile jsIsSpace (jsToLower u) = jsToLower u := by
    by_cases hune : u = []
    · subst hune
      rfl
    · have hlast : jsIsSpace (u.getLast hune) = false := by
        rw [List.rdropWhile_eq_self_iff] at h2
        have hnp := h2 hune
        cases hq : jsIsSpace (u.getLast hune) with
        | false => rfl
        | true => exact absurd hq hnp
      have himg : jsToLower u = jsToLower u.dropLast ++ jsLowerChar (u.getLast hune) := by
        conv_lhs => rw [← List.dropLast_concat_getLast hune]
        unfold jsToLower
        rw [List.flatMap_append]
        simp
      have hbs : jsLowerChar (u.getLast hune) ≠ [] := jsLowerChar_ne_nil _
      have hlastb : jsIsSpace ((jsLowerChar (u.getLast hune)).getLast hbs) = false :=
        jsLowerChar_not_space hlast _ (List.getLast_mem hbs)
      rw [himg, ← List.dropLast_concat_getLast hbs, ← List.append_assoc]
      exact List.rdropWhile_concat_neg _ _ _ (by simp [hlastb])
  calc jsTrim (jsToLower u)
      = List.rdropWhile jsIsSpace ((jsToLower u).dropWhile jsIsSpace) :=
        jsTrim_eq_rdropWhile _
    _ = List.rdropWhile jsIsSpace (jsToLower u) := by rw [hfront]
    _ = jsToLower u := hback

/-- The İ expansion in action: `jsToLower` can lengthen a string. -/
theorem jsToLower_expands_dotted_capital_i :
    jsToLower ['\u0130'] = ['i', '\u0307'] := by decide

/-- The email shape check survives the default lowercase conversion
(including the İ expansion, whose two units are admissible). -/
theorem emailRegexTest_jsToLower {s : Str} (h : emailRegexTest s = true) :
    emailRegexTest (jsToLower s) = true := by
  rw [emailRegexTest_eq_true_iff] at h ⊢
  obtain ⟨hloc, domain, hdw, hdne, hall, hdot⟩ := h
  have hT : ∀ c, isEmailChar c = true → ∀ b ∈ jsLowerChar c, isEmailChar b = true :=
    fun c hc => jsLowerChar_email hc
  have hF : ∀ c, isEmailChar c = false → jsLowerChar c = [c] :=
    fun c hc => jsLowerChar_not_email hc
  constructor
  · show (s.flatMap jsLowerChar).takeWhile isEmailChar ≠ []
    rw [takeWhile_flatMap _ _ _ hT hF]
    exact jsToLower_ne_nil hloc
  · refine ⟨jsToLower domain, ?_, ?_, ?_, ?_⟩
    · show (s.flatMap jsLowerChar).dropWhile isEmailChar = _
      rw [dropWhile_flatMap _ _ _ hT hF, hdw]
      show jsLowerChar '@' ++ domain.flatMap jsLowerChar = '@' :: jsToLower domain
      rfl
    · exact jsToLower_ne_nil hdne
    · intro c hc
      rw [show jsToLower domain = domain.flatMap jsLowerChar from rfl,
        List.mem_flatMap] at hc
      obtain ⟨d, hd, hcd⟩ := hc
      exact jsLowerChar_email (hall d hd) c hcd
    · obtain ⟨A, B, hAB, hA, hB⟩ := mem_interior_elim domain hdot
      rw [hAB, show jsToLower (A ++ '.' :: B) = jsToLower A ++ '.' :: jsToLower B
        from by unfold jsToLower; rw [List.flatMap_append]; rfl]
      exact mem_interior_intro _ _ (jsToLower_ne_nil hA) (jsToLower_ne_nil hB)

end PortfolioBackend

/-! ### Pipeline branch lemmas -/

namespace PortfolioBackend

/-- `missingVars` is empty exactly when the four required keys are all
set and non-empty. -/
theorem missingVars_eq_nil_iff (cfg : Config) : missingVars cfg = [] ↔
    (truthy cfg.emailUser = true ∧ truthy cfg.emailPass = true ∧
     truthy cfg.siteName = true ∧ truthy cfg.emailFrom = true) := by
  simp [missingVars, requiredEnvVars, envVar, List.filter_cons]
  split_ifs <;> simp_all

/-- With a missing required key the handler short-circuits at the
configuration gate. -/
theorem handleContact_config_error (cfg : Config) (body : RawSubmission)
    (tr : Transport) (d1 d2 : Str) (h : missingVars cfg ≠ []) :
    handleContact cfg body tr d1 d2 = (configErrorResponse, ⟨false, false, none⟩) := by
  unfold handleContact
  rw [if_pos (List.length_pos.mpr h)]

/-- With complete configuration and a falsy field the handler returns
the missing-fields response. -/
theorem handleContact_missing_fields (cfg : Config) (body : RawSubmission)
    (tr : Transport) (d1 d2 : Str) (hm : missingVars cfg = [])
    (hf : (!truthy body.fullname || !truthy body.email || !truthy body.message) = true) :
    handleContact cfg body tr d1 d2 = (missingFieldsResponse, ⟨false, false, none⟩) := by
  unfold handleContact
  rw [if_neg (by simp [hm]), if_pos hf]

/-- With complete configuration, truthy fields and an email failing the
shape check, the handler returns the invalid-email response. -/
theorem handleContact_invalid_email (cfg : Config) (body : RawSubmission)
    (tr : Transport) (d1 d2 : Str) (hm : missingVars cfg = [])
    (hf : truthy body.fullname = true) (he : truthy body.email = true)
    (hg : truthy body.message = true)
    (hr : emailRegexTest (body.email.getD []) = false) :
    handleContact cfg body tr d1 d2 = (invalidEmailResponse, ⟨false, false, none⟩) := by
  unfold handleContact
  rw [if_neg (by simp [hm]), if_neg (by simp [hf, he, hg])]
  simp only [if_pos (by simp [hr] : (!emailRegexTest (body.email.getD [])) = true)]

/-- With complete configuration, truthy fields, a well-shaped email and
a failing `verify()`, the handler reports the service unavailable and
does not call `send`. -/
theorem handleContact_verify_error (cfg : Config) (body : RawSubmission)
    (tr : Transport) (d1 d2 : Str) (e : TransportError) (hm : missingVars cfg = [])
    (hf : truthy body.fullname = true) (he : truthy body.email = true)
    (hg : truthy body.message = true)
    (hr : emailRegexTest (body.email.getD []) = true)
    (hv : tr.verifyResult = .error e) :
    handleContact cfg body tr d1 d2 = (verifyFailedResponse, ⟨true, false, none⟩) := by
  unfold handleContact
  rw [if_neg (by simp [hm]), if_neg (by simp [hf, he, hg]),
    if_neg (by simp [hr]), hv]

/-- With a passing `verify()` and a successful `send`, the handler
returns the success response and records the composed mail. -/
theorem handleContact_send_ok (cfg : Config) (body : RawSubmission)
    (tr : Transport) (d1 d2 : Str) (mid : Str) (hm : missingVars cfg = [])
    (hf : truthy body.fullname = true) (he : truthy body.email = true)
    (hg : truthy body.message = true)
    (hr : emailRegexTest (body.email.getD []) = true)
    (hv : tr.verifyResult = .ok ()) (hs : tr.sendResult = .ok mid) :
    handleContact cfg body tr d1 d2 =
      (successResponse, ⟨true, true,
        some (mailOptions
          (sanitizedData ⟨body.fullname.getD [], body.email.getD [], body.message.getD []⟩)
          cfg d1 d2)⟩) := by
  unfold handleContact
  rw [if_neg (by simp [hm]), if_neg (by simp [hf, he, hg]),
    if_neg (by simp [hr]), hv, hs]

/-- With a passing `verify()` and a failing `send`, the handler maps the
transport error code and records the attempted mail. -/
theorem handleContact_send_error (cfg : Config) (body : RawSubmission)
    (tr : Transport) (d1 d2 : Str) (e : TransportError) (hm : missingVars cfg = [])
    (hf : truthy body.fullname = true) (he : truthy body.email = true)
    (hg : truthy body.message = true)
    (hr : emailRegexTest (body.email.getD []) = true)
    (hv : tr.verifyResult = .ok ()) (hs : tr.sendResult = .error e) :
    handleContact cfg body tr d1 d2 =
      (sendErrorResponse e, ⟨true, true,
        some (mailOptions
          (sanitizedData ⟨body.fullname.getD [], body.email.getD [], body.message.getD []⟩)
          cfg d1 d2)⟩) := by
  unfold handleContact
  rw [if_neg (by simp [hm]), if_neg (by simp [hf, he, hg]),
    if_neg (by simp [hr]), hv, hs]

end PortfolioBackend

/-! ### Claims -/

namespace PortfolioBackend

/-- C3: if any required configuration key is absent or empty, the
pipeline returns the generic configuration-error response — regardless
of the submitted fields — and the transporter is never contacted
(neither `verify` nor `send` is called). -/
theorem C3_config_error_gate (cfg : Config) (body : RawSubmission)
    (tr : Transport) (d1 d2 : Str)
    (h : truthy cfg.emailUser = false ∨ truthy cfg.emailPass = false ∨
         truthy cfg.siteName = false ∨ truthy cfg.emailFrom = false) :
    handleContact cfg body tr d1 d2 = (configErrorResponse, ⟨false, false, none⟩) := by
  apply handleContact_config_error
  intro hm
  rw [missingVars_eq_nil_iff] at hm
  rcases h with h | h | h | h <;> simp [h] at hm

/-- Witness for C3 at a concrete input: `EMAIL_PASS` unset. -/
theorem C3_config_error_gate_witness :
    truthy (Config.mk (some (lit "o@x.com")) none (some (lit "S")) (some (lit "f@x.com"))).emailPass = false ∧
    handleContact ⟨some (lit "o@x.com"), none, some (lit "S"), some (lit "f@x.com")⟩
        ⟨some (lit "Jane Doe"), some (lit "jane@x.com"), some (lit "Hi there")⟩
        trOk (lit "d1") (lit "d2") =
      (configErrorResponse, ⟨false, false, none⟩) :=
  ⟨by decide,
   C3_config_error_gate _ _ trOk (lit "d1") (lit "d2") (Or.inr (Or.inl (by decide)))⟩

/-- C4: with complete configuration, a submission with any field
missing or empty returns the missing-fields validation response and the
transporter is never contacted. -/
theorem C4_missing_fields (cfg : Config) (body : RawSubmission)
    (tr : Transport) (d1 d2 : Str) (hm : missingVars cfg = [])
    (h : truthy body.fullname = false ∨ truthy body.email = false ∨
         truthy body.message = false) :
    handleContact cfg body tr d1 d2 = (missingFieldsResponse, ⟨false, false, none⟩) := by
  apply handleContact_missing_fields _ _ _ _ _ hm
  rcases h with h | h | h <;> simp [h]

/-- Witness for C4 at a concrete input: empty `message`. -/
theorem C4_missing_fields_witness :
    missingVars cfgOk = [] ∧
    truthy (RawSubmission.mk (some (lit "Jane Doe")) (some (lit "jane@x.com")) (some (lit ""))).message = false ∧
    handleContact cfgOk ⟨some (lit "Jane Doe"), some (lit "jane@x.com"), some (lit "")⟩
        trOk (lit "d1") (lit "d2") =
      (missingFieldsResponse, ⟨false, false, none⟩) :=
  ⟨by decide, by decide,
   C4_missing_fields cfgOk _ trOk (lit "d1") (lit "d2") (by decide)
     (Or.inr (Or.inr (by decide)))⟩

/-- C7: on an accepted submission whose `verify()` fails, the pipeline
returns the generic transport-unavailable response and never calls
`send`. -/
theorem C7_verify_fail_no_send (cfg : Config) (body : RawSubmission)
    (tr : Transport) (d1 d2 : Str) (e : TransportError)
    (hm : missingVars cfg = [])
    (hf : truthy body.fullname = true) (he : truthy body.email = true)
    (hg : truthy body.message = true)
    (hr : emailRegexTest (body.email.getD []) = true)
    (hv : tr.verifyResult = .error e) :
    (handleContact cfg body tr d1 d2).1 = verifyFailedResponse ∧
    (handleContact cfg body tr d1 d2).2.sendCalled = false ∧
    (handleContact cfg body tr d1 d2).2.sent = none := by
  rw [handleContact_verify_error cfg body tr d1 d2 e hm hf he hg hr hv]
  exact ⟨rfl, rfl, rfl⟩

/-- Witness for C7 at a concrete input. -/
theorem C7_verify_fail_no_send_witness :
    missingVars cfgOk = [] ∧
    trVerifyFail.verifyResult = .error .econnection ∧
    ((handleContact cfgOk ⟨some (lit "Jane Doe"), some (lit "jane@x.com"), some (lit "Hi there")⟩
        trVerifyFail (lit "d1") (lit "d2")).1 = verifyFailedResponse ∧
     (handleContact cfgOk ⟨some (lit "Jane Doe"), some (lit "jane@x.com"), some (lit "Hi there")⟩
        trVerifyFail (lit "d1") (lit "d2")).2.sendCalled = false ∧
     (handleContact cfgOk ⟨some (lit "Jane Doe"), some (lit "jane@x.com"), some (lit "Hi there")⟩
        trVerifyFail (lit "d1") (lit "d2")).2.sent = none) :=
  ⟨by decide, rfl,
   C7_verify_fail_no_send cfgOk _ trVerifyFail (lit "d1") (lit "d2") .econnection
     (by decide) (by decide) (by decide) (by decide) (by decide) rfl⟩

/-- C9: the end-to-end success path: the Jane Doe submission with
complete configuration and a transporter whose `verify` and `send`
succeed yields HTTP 200, `success: true` and the exact message
`Your message has been sent successfully!`. -/
theorem C9_end_to_end (cfg : Config) (tr : Transport) (d1 d2 mid : Str)
    (hm : missingVars cfg = [])
    (hv : tr.verifyResult = .ok ()) (hs : tr.sendResult = .ok mid) :
    (handleContact cfg
        ⟨some (lit "Jane Doe"), some (lit "jane@x.com"), some (lit "Hi there")⟩
        tr d1 d2).1 =
      { status := 200, success := true,
        body := lit "Your message has been sent successfully!" } := by
  rw [handleContact_send_ok cfg _ tr d1 d2 mid hm (by decide) (by decide) (by decide)
    (by decide) hv hs]
  rfl

/-- Witness for C9 at a concrete configuration and transporter. -/
theorem C9_end_to_end_witness :
    missingVars cfgOk = [] ∧ trOk.verifyResult = .ok () ∧
    trOk.sendResult = .ok (lit "msgid-1") ∧
    (handleContact cfgOk
        ⟨some (lit "Jane Doe"), some (lit "jane@x.com"), some (lit "Hi there")⟩
        trOk (lit "d1") (lit "d2")).1 =
      { status := 200, success := true,
        body := lit "Your message has been sent successfully!" } :=
  ⟨by decide, rfl, rfl,
   C9_end_to_end cfgOk trOk (lit "d1") (lit "d2") (lit "msgid-1")
     (by decide) rfl rfl⟩

end PortfolioBackend

namespace PortfolioBackend

/-- After all three validation gates pass, the handler always calls
`verify` and the response is one of the three transport outcomes. -/
theorem handleContact_after_validation (cfg : Config) (body : RawSubmission)
    (tr : Transport) (d1 d2 : Str) (hm : missingVars cfg = [])
    (hf : truthy body.fullname = true) (he : truthy body.email = true)
    (hg : truthy body.message = true)
    (hr : emailRegexTest (body.email.getD []) = true) :
    (handleContact cfg body tr d1 d2).2.verifyCalled = true ∧
    ((handleContact cfg body tr d1 d2).1 = verifyFailedResponse ∨
     (handleContact cfg body tr d1 d2).1 = successResponse ∨
     ∃ e, (handleContact cfg body tr d1 d2).1 = sendErrorResponse e) := by
  cases hv : tr.verifyResult with
  | error e =>
      rw [handleContact_verify_error cfg body tr d1 d2 e hm hf he hg hr hv]
      exact ⟨rfl, Or.inl rfl⟩
  | ok u =>
      cases u
      cases hs : tr.sendResult with
      | ok mid =>
          rw [handleContact_send_ok cfg body tr d1 d2 mid hm hf he hg hr hv hs]
          exact ⟨rfl, Or.inr (Or.inl rfl)⟩
      | error e =>
          rw [handleContact_send_error cfg body tr d1 d2 e hm hf he hg hr hv hs]
          exact ⟨rfl, Or.inr (Or.inr ⟨e, rfl⟩)⟩

/-- C5: with complete configuration and all fields present, the handler
answers with a 400 validation response exactly when the raw email fails
the shape check `^[^\s@]+@[^\s@]+\.[^\s@]+$`. -/
theorem C5_email_shape (cfg : Config) (body : RawSubmission)
    (tr : Transport) (d1 d2 : Str) (hm : missingVars cfg = [])
    (hf : truthy body.fullname = true) (he : truthy body.email = true)
    (hg : truthy body.message = true) :
    (handleContact cfg body tr d1 d2).1.status = 400 ↔
      emailRegexTest (body.email.getD []) = false := by
  cases hreg : emailRegexTest (body.email.getD []) with
  | false =>
      rw [handleContact_invalid_email cfg body tr d1 d2 hm hf he hg hreg]
      simp [invalidEmailResponse]
  | true =>
      obtain ⟨hvc, hcase⟩ :=
        handleContact_after_validation cfg body tr d1 d2 hm hf he hg hreg
      constructor
      · intro h400
        rcases hcase with h | h | ⟨e, h⟩ <;> rw [h] at h400
        · simp [verifyFailedResponse] at h400
        · simp [successResponse] at h400
        · cases e <;> simp [sendErrorResponse] at h400
      · intro hfalse
        exact Bool.noConfusion hfalse

/-- Witness for C5: `not-an-email` is rejected with 400 and `a@b.c` is
not. -/
theorem C5_email_shape_witness :
    emailRegexTest (lit "not-an-email") = false ∧
    (handleContact cfgOk
      ⟨some (lit "Jane Doe"), some (lit "not-an-email"), some (lit "Hi there")⟩
      trOk (lit "d1") (lit "d2")).1.status = 400 ∧
    emailRegexTest (lit "a@b.c") = true ∧
    ¬ (handleContact cfgOk
      ⟨some (lit "Jane Doe"), some (lit "a@b.c"), some (lit "Hi there")⟩
      trOk (lit "d1") (lit "d2")).1.status = 400 :=
  ⟨by decide,
   (C5_email_shape cfgOk _ trOk (lit "d1") (lit "d2") (by decide) (by decide)
       (by decide) (by decide)).mpr (by decide),
   by decide,
   fun h =>
     absurd ((C5_email_shape cfgOk _ trOk (lit "d1") (lit "d2") (by decide) (by decide)
       (by decide) (by decide)).mp h) (by decide)⟩

/-- C10: the email shape check reads the raw field, before trimming,
lower-casing or truncation: a raw email failing the pattern is rejected
outright (however its trimmed form would fare), and a raw email
matching the pattern proceeds to the transporter (however its truncated
form would fare). -/
theorem C10_raw_email_checked (cfg : Config) (body : RawSubmission)
    (tr : Transport) (d1 d2 : Str) (hm : missingVars cfg = [])
    (hf : truthy body.fullname = true) (he : truthy body.email = true)
    (hg : truthy body.message = true) :
    (emailRegexTest (body.email.getD []) = false →
      handleContact cfg body tr d1 d2 = (invalidEmailResponse, ⟨false, false, none⟩)) ∧
    (emailRegexTest (body.email.getD []) = true →
      (handleContact cfg body tr d1 d2).2.verifyCalled = true ∧
      (handleContact cfg body tr d1 d2).1 ≠ invalidEmailResponse ∧
      (handleContact cfg body tr d1 d2).1 ≠ missingFieldsResponse) := by
  constructor
  · intro hreg
    exact handleContact_invalid_email cfg body tr d1 d2 hm hf he hg hreg
  · intro hreg
    obtain ⟨hvc, hcase⟩ :=
      handleContact_after_validation cfg body tr d1 d2 hm hf he hg hreg
    refine ⟨hvc, ?_, ?_⟩ <;>
      rcases hcase with h | h | ⟨e, h⟩ <;> rw [h] <;>
        first
          | decide
          | (cases e <;> decide)

/-- Witness for C10: `" a@b.c "` fails raw but would match after
trimming, and is rejected; a 103-unit address matches raw but its
100-unit truncation does not, and still reaches the transporter. -/
theorem C10_raw_email_checked_witness :
    emailRegexTest (lit " a@b.c ") = false ∧
    emailRegexTest (jsToLower (jsTrim (lit " a@b.c "))) = true ∧
    handleContact cfgOk
        ⟨some (lit "Jane Doe"), some (lit " a@b.c "), some (lit "Hi there")⟩
        trOk (lit "d1") (lit "d2") = (invalidEmailResponse, ⟨false, false, none⟩) ∧
    emailRegexTest (List.replicate 98 'a' ++ lit "@b.c") = true ∧
    emailRegexTest ((jsToLower (jsTrim (List.replicate 98 'a' ++ lit "@b.c"))).take 100) = false ∧
    (handleContact cfgOk
        ⟨some (lit "Jane Doe"), some (List.replicate 98 'a' ++ lit "@b.c"), some (lit "Hi there")⟩
        trOk (lit "d1") (lit "d2")).2.verifyCalled = true :=
  ⟨by decide, by decide,
   (C10_raw_email_checked cfgOk _ trOk (lit "d1") (lit "d2") (by decide) (by decide)
       (by decide) (by decide)).1 (by decide),
   by decide, by decide,
   ((C10_raw_email_checked cfgOk _ trOk (lit "d1") (lit "d2") (by decide) (by decide)
       (by decide) (by decide)).2 (by decide)).1⟩

end PortfolioBackend

namespace PortfolioBackend

/-- C1 fails as stated: with complete configuration, the all-whitespace
fullname `" "` passes every validation gate — the handler reaches the
transporter — yet its sanitized form is the empty string, violating the
claimed non-emptiness invariant. -/
theorem C1_counterexample :
    (handleContact cfgOk ⟨some (lit " "), some (lit "a@b.c"), some (lit "Hi")⟩
        trOk (lit "d1") (lit "d2")).2.verifyCalled = true ∧
    (sanitizedData ⟨lit " ", lit "a@b.c", lit "Hi"⟩).fullname = [] :=
  ⟨by decide, by decide⟩

/-- C1 amended: for every submission accepted past validation the
sanitized fields are within their caps and the sanitized email is
non-empty; the sanitized fullname and message are non-empty provided
the raw field contains a non-whitespace unit, and the sanitized email
still matches the shape provided its lower-cased form is at most 100
units (lower-casing can lengthen a string: U+0130 expands to two
units). -/
theorem C1_amended (cfg : Config) (body : RawSubmission)
    (hm : missingVars cfg = [])
    (hf : truthy body.fullname = true) (he : truthy body.email = true)
    (hg : truthy body.message = true)
    (hr : emailRegexTest (body.email.getD []) = true) :
    (sanitizedData (submissionOf body)).fullname.length ≤ 100 ∧
    (sanitizedData (submissionOf body)).email.length ≤ 100 ∧
    (sanitizedData (submissionOf body)).message.length ≤ 1000 ∧
    (sanitizedData (submissionOf body)).email ≠ [] ∧
    ((∃ c ∈ body.fullname.getD [], jsIsSpace c = false) →
      (sanitizedData (submissionOf body)).fullname ≠ []) ∧
    ((∃ c ∈ body.message.getD [], jsIsSpace c = false) →
      (sanitizedData (submissionOf body)).message ≠ []) ∧
    ((jsToLower (body.email.getD [])).length ≤ 100 →
      emailRegexTest (sanitizedData (submissionOf body)).email = true) := by
  have hnos := emailRegexTest_no_space hr
  have htr : jsTrim (body.email.getD []) = body.email.getD [] :=
    jsTrim_eq_self_of_no_space _ hnos
  have hene : body.email.getD [] ≠ [] := emailRegexTest_ne_nil hr
  refine ⟨?_, ?_, ?_, ?_, ?_, ?_, ?_⟩
  · simp [sanitizedData, submissionOf, List.length_take]
  · simp [sanitizedData, submissionOf, List.length_take]
  · simp [sanitizedData, submissionOf, List.length_take]
  · show (jsToLower (jsTrim (body.email.getD []))).take 100 ≠ []
    rw [htr]
    intro hnil
    rw [List.take_eq_nil_iff] at hnil
    rcases hnil with h | h
    · exact absurd h (by decide)
    · exact jsToLower_ne_nil hene h
  · intro hex
    show (jsTrim (body.fullname.getD [])).take 100 ≠ []
    intro hnil
    rw [List.take_eq_nil_iff] at hnil
    rcases hnil with h | h
    · exact absurd h (by decide)
    · exact jsTrim_ne_nil _ hex h
  · intro hex
    show (jsTrim (body.message.getD [])).take 1000 ≠ []
    intro hnil
    rw [List.take_eq_nil_iff] at hnil
    rcases hnil with h | h
    · exact absurd h (by decide)
    · exact jsTrim_ne_nil _ hex h
  · intro hlen
    show emailRegexTest ((jsToLower (jsTrim (body.email.getD []))).take 100) = true
    rw [htr, List.take_of_length_le hlen]
    exact emailRegexTest_jsToLower hr

/-- Witness for the amended C1 at a concrete accepted submission. -/
theorem C1_amended_witness :
    missingVars cfgOk = [] ∧
    emailRegexTest (lit "User@Example.COM") = true ∧
    ((sanitizedData (submissionOf ⟨some (lit "Jane Doe"), some (lit "User@Example.COM"), some (lit " Hi ")⟩)).fullname.length ≤ 100 ∧
     (sanitizedData (submissionOf ⟨some (lit "Jane Doe"), some (lit "User@Example.COM"), some (lit " Hi ")⟩)).email.length ≤ 100 ∧
     (sanitizedData (submissionOf ⟨some (lit "Jane Doe"), some (lit "User@Example.COM"), some (lit " Hi ")⟩)).message.length ≤ 1000 ∧
     (sanitizedData (submissionOf ⟨some (lit "Jane Doe"), some (lit "User@Example.COM"), some (lit " Hi ")⟩)).email ≠ [] ∧
     ((∃ c ∈ (some (lit "Jane Doe") : Option Str).getD [], jsIsSpace c = false) →
       (sanitizedData (submissionOf ⟨some (lit "Jane Doe"), some (lit "User@Example.COM"), some (lit " Hi ")⟩)).fullname ≠ []) ∧
     ((∃ c ∈ (some (lit " Hi ") : Option Str).getD [], jsIsSpace c = false) →
       (sanitizedData (submissionOf ⟨some (lit "Jane Doe"), some (lit "User@Example.COM"), some (lit " Hi ")⟩)).message ≠ []) ∧
     ((jsToLower ((some (lit "User@Example.COM") : Option Str).getD [])).length ≤ 100 →
       emailRegexTest (sanitizedData (submissionOf ⟨some (lit "Jane Doe"), some (lit "User@Example.COM"), some (lit " Hi ")⟩)).email = true)) :=
  ⟨by decide, by decide,
   C1_amended cfgOk ⟨some (lit "Jane Doe"), some (lit "User@Example.COM"), some (lit " Hi ")⟩
     (by decide) (by decide) (by decide) (by decide) (by decide)⟩

end PortfolioBackend

namespace PortfolioBackend

/-- C2 fails as stated: truncating to 100 units can expose trailing
whitespace that a second trim removes, so sanitizing twice differs from
sanitizing once on this 102-unit fullname. -/
theorem C2_counterexample :
    sanitizedData (sanitizedData
      ⟨'a' :: (List.replicate 100 ' ' ++ ['b']), lit "a@b.c", lit "Hi"⟩) ≠
    sanitizedData ⟨'a' :: (List.replicate 100 ' ' ++ ['b']), lit "a@b.c", lit "Hi"⟩ := by
  decide

/-- C2 amended: sanitization is idempotent on every submission whose
trimmed fullname is at most 100 units, whose trimmed and lower-cased
email is at most 100 units (lower-casing can lengthen a string: U+0130
expands to two units), and whose trimmed message is at most 1000 units
(then truncation cannot expose new trailing whitespace). -/
theorem C2_amended (s : Submission)
    (h1 : (jsTrim s.fullname).length ≤ 100)
    (h2 : (jsToLower (jsTrim s.email)).length ≤ 100)
    (h3 : (jsTrim s.message).length ≤ 1000) :
    sanitizedData (sanitizedData s) = sanitizedData s := by
  unfold sanitizedData
  simp only [Submission.mk.injEq]
  refine ⟨?_, ?_, ?_⟩
  · rw [List.take_of_length_le h1, jsTrim_idem, List.take_of_length_le h1]
  · rw [List.take_of_length_le h2,
      jsTrim_jsToLower_self (jsTrim s.email) (jsTrim_dropWhile_self s.email)
        (jsTrim_rdropWhile_self s.email),
      jsToLower_idem]
    exact List.take_of_length_le h2
  · rw [List.take_of_length_le h3, jsTrim_idem, List.take_of_length_le h3]

/-- Witness for the amended C2 at a concrete submission. -/
theorem C2_amended_witness :
    (jsTrim (lit "Jane Doe")).length ≤ 100 ∧
    (jsToLower (jsTrim (lit "User@Example.COM"))).length ≤ 100 ∧
    (jsTrim (lit " Hi there ")).length ≤ 1000 ∧
    sanitizedData (sanitizedData ⟨lit "Jane Doe", lit "User@Example.COM", lit " Hi there "⟩) =
      sanitizedData ⟨lit "Jane Doe", lit "User@Example.COM", lit " Hi there "⟩ :=
  ⟨by decide, by decide, by decide,
   C2_amended ⟨lit "Jane Doe", lit "User@Example.COM", lit " Hi there "⟩
     (by decide) (by decide) (by decide)⟩

end PortfolioBackend

namespace PortfolioBackend

/-- Trimming drops exactly the leading space of `' ' :: replicate n 'x'`. -/
theorem jsTrim_space_replicate (n : Nat) :
    jsTrim (' ' :: List.replicate n 'x') = List.replicate n 'x' := by
  have hrep : ∀ c ∈ List.replicate n 'x', jsIsSpace c = false := by
    intro c hc
    rw [List.eq_of_mem_replicate hc]
    decide
  have hdrop : (List.replicate n 'x' : Str).dropWhile jsIsSpace = List.replicate n 'x' :=
    dropWhile_eq_self_of_all _ _ hrep
  have hjs : jsTrim (List.replicate n 'x') = List.replicate n 'x' :=
    jsTrim_eq_self_of_no_space _ hrep
  have hrd : List.rdropWhile jsIsSpace (List.replicate n 'x') = List.replicate n 'x' := by
    have h := hjs
    rw [jsTrim_eq_rdropWhile, hdrop] at h
    exact h
  calc jsTrim (' ' :: List.replicate n 'x')
      = List.rdropWhile jsIsSpace
          ((' ' :: List.replicate n 'x').dropWhile jsIsSpace) := jsTrim_eq_rdropWhile _
    _ = List.rdropWhile jsIsSpace (List.replicate n 'x') := by
        rw [List.dropWhile_cons, show jsIsSpace ' ' = true from rfl, if_pos rfl, hdrop]
    _ = List.replicate n 'x' := hrd

/-- C6 fails as stated: trimming happens before truncation, so a
2000-unit message with a leading space is accepted and forwarded, but
not as its own first 1000 units. -/
theorem C6_counterexample :
    (' ' :: List.replicate 1999 'x').length = 2000 ∧
    (handleContact cfgOk ⟨some (lit "Jane Doe"), some (lit "jane@x.com"),
        some (' ' :: List.replicate 1999 'x')⟩ trOk (lit "d1") (lit "d2")).1 =
      successResponse ∧
    (sanitizedData ⟨lit "Jane Doe", lit "jane@x.com",
        ' ' :: List.replicate 1999 'x'⟩).message ≠
      (' ' :: List.replicate 1999 'x').take 1000 := by
  refine ⟨by rw [List.length_cons, List.length_replicate], by decide, ?_⟩
  dsimp only [sanitizedData]
  rw [jsTrim_space_replicate, List.take_replicate,
    show min 1000 1999 = 1000 from rfl,
    show (1000 : Nat) = 999 + 1 from rfl, List.take_succ_cons, List.take_replicate,
    show min 999 1999 = 999 from rfl, List.replicate_succ]
  intro h
  injection h with h1 h2
  exact absurd h1 (by decide)

end PortfolioBackend

namespace PortfolioBackend

/-- C6 amended: truncation is silent and exact on the trimmed fields:
every accepted submission is answered with the plain success response
(no error, no signal that content was cut), and the forwarded message
and fullname are exactly the first 1000/100 units of the trimmed raw
values — hence of the raw values themselves whenever they carry no
surrounding whitespace. -/
theorem C6_amended (cfg : Config) (body : RawSubmission) (tr : Transport)
    (d1 d2 mid : Str) (hm : missingVars cfg = [])
    (hf : truthy body.fullname = true) (he : truthy body.email = true)
    (hg : truthy body.message = true)
    (hr : emailRegexTest (body.email.getD []) = true)
    (hv : tr.verifyResult = .ok ()) (hs : tr.sendResult = .ok mid) :
    (handleContact cfg body tr d1 d2).1 = successResponse ∧
    (handleContact cfg body tr d1 d2).2.sent =
      some (mailOptions (sanitizedData (submissionOf body)) cfg d1 d2) ∧
    (sanitizedData (submissionOf body)).message =
      (jsTrim (body.message.getD [])).take 1000 ∧
    (sanitizedData (submissionOf body)).fullname =
      (jsTrim (body.fullname.getD [])).take 100 := by
  rw [handleContact_send_ok cfg body tr d1 d2 mid hm hf he hg hr hv hs]
  exact ⟨rfl, rfl, rfl, rfl⟩

/-- Witness for the amended C6: a 150-unit fullname and a 2000-unit
message are accepted, truncated, and answered with the success
response. -/
theorem C6_amended_witness :
    missingVars cfgOk = [] ∧
    (List.replicate 150 'n').length = 150 ∧
    (List.replicate 2000 'x').length = 2000 ∧
    ((handleContact cfgOk ⟨some (List.replicate 150 'n'), some (lit "jane@x.com"),
        some (List.replicate 2000 'x')⟩ trOk (lit "d1") (lit "d2")).1 = successResponse ∧
     (handleContact cfgOk ⟨some (List.replicate 150 'n'), some (lit "jane@x.com"),
        some (List.replicate 2000 'x')⟩ trOk (lit "d1") (lit "d2")).2.sent =
       some (mailOptions
         (sanitizedData (submissionOf ⟨some (List.replicate 150 'n'), some (lit "jane@x.com"),
           some (List.replicate 2000 'x')⟩)) cfgOk (lit "d1") (lit "d2")) ∧
     (sanitizedData (submissionOf ⟨some (List.replicate 150 'n'), some (lit "jane@x.com"),
        some (List.replicate 2000 'x')⟩)).message =
       (jsTrim ((some (List.replicate 2000 'x') : Option Str).getD [])).take 1000 ∧
     (sanitizedData (submissionOf ⟨some (List.replicate 150 'n'), some (lit "jane@x.com"),
        some (List.replicate 2000 'x')⟩)).fullname =
       (jsTrim ((some (List.replicate 150 'n') : Option Str).getD [])).take 100) :=
  ⟨by decide, by rw [List.length_replicate], by rw [List.length_replicate],
   C6_amended cfgOk ⟨some (List.replicate 150 'n'), some (lit "jane@x.com"),
       some (List.replicate 2000 'x')⟩ trOk (lit "d1") (lit "d2") (lit "msgid-1")
     (by decide) (by decide) (by decide) (by decide) (by decide) rfl rfl⟩

end PortfolioBackend

namespace PortfolioBackend

/-- C8 fails as stated: the composed bodies embed the wall-clock time
(`new Date()`), so two runs of the composition step on the same
SanitizedSubmission and Configuration need not produce identical
OutboundNotification values. -/
theorem C8_counterexample :
    mailOptions (sanitizedData ⟨lit "Jane Doe", lit "jane@x.com", lit "Hi there"⟩)
        cfgOk (lit "Monday, January 5, 2026, 10:00 AM") (lit "1/5/2026, 10:00:00 AM") ≠
    mailOptions (sanitizedData ⟨lit "Jane Doe", lit "jane@x.com", lit "Hi there"⟩)
        cfgOk (lit "Tuesday, January 6, 2026, 11:00 AM") (lit "1/6/2026, 11:00:00 AM") :=
  fun h => absurd (congrArg MailOptions.text h) (by decide)

/-- C8 amended: composition is deterministic given the clock readings;
`from`, `to` and `subject` do not depend on the clock at all, with
`subject = "New Contact - " + sanitized.fullname` and `to` the
configured mail-account identity. -/
theorem C8_amended (d : Submission) (cfg : Config) (dh dt dh2 dt2 : Str) :
    (mailOptions d cfg dh dt).fromAddr = (mailOptions d cfg dh2 dt2).fromAddr ∧
    (mailOptions d cfg dh dt).toAddr = (mailOptions d cfg dh2 dt2).toAddr ∧
    (mailOptions d cfg dh dt).subject = (mailOptions d cfg dh2 dt2).subject ∧
    (mailOptions d cfg dh dt).subject = lit "New Contact - " ++ d.fullname ∧
    (mailOptions d cfg dh dt).toAddr = cfg.emailUser.getD [] ∧
    (dh = dh2 → dt = dt2 → mailOptions d cfg dh dt = mailOptions d cfg dh2 dt2) :=
  ⟨rfl, rfl, rfl, rfl, rfl, fun h1 h2 => by rw [h1, h2]⟩

/-- Witness for the amended C8 at concrete inputs. -/
theorem C8_amended_witness :
    (mailOptions (sanitizedData ⟨lit "Jane Doe", lit "jane@x.com", lit "Hi there"⟩)
        cfgOk (lit "d1") (lit "d2")).fromAddr =
      (mailOptions (sanitizedData ⟨lit "Jane Doe", lit "jane@x.com", lit "Hi there"⟩)
        cfgOk (lit "d1") (lit "d2")).fromAddr ∧
    (mailOptions (sanitizedData ⟨lit "Jane Doe", lit "jane@x.com", lit "Hi there"⟩)
        cfgOk (lit "d1") (lit "d2")).toAddr =
      (mailOptions (sanitizedData ⟨lit "Jane Doe", lit "jane@x.com", lit "Hi there"⟩)
        cfgOk (lit "d1") (lit "d2")).toAddr ∧
    (mailOptions (sanitizedData ⟨lit "Jane Doe", lit "jane@x.com", lit "Hi there"⟩)
        cfgOk (lit "d1") (lit "d2")).subject =
      (mailOptions (sanitizedData ⟨lit "Jane Doe", lit "jane@x.com", lit "Hi there"⟩)
        cfgOk (lit "d1") (lit "d2")).subject ∧
    (mailOptions (sanitizedData ⟨lit "Jane Doe", lit "jane@x.com", lit "Hi there"⟩)
        cfgOk (lit "d1") (lit "d2")).subject =
      lit "New Contact - " ++
        (sanitizedData ⟨lit "Jane Doe", lit "jane@x.com", lit "Hi there"⟩).fullname ∧
    (mailOptions (sanitizedData ⟨lit "Jane Doe", lit "jane@x.com", lit "Hi there"⟩)
        cfgOk (lit "d1") (lit "d2")).toAddr = cfgOk.emailUser.getD [] ∧
    (lit "d1" = lit "d1" → lit "d2" = lit "d2" →
      mailOptions (sanitizedData ⟨lit "Jane Doe", lit "jane@x.com", lit "Hi there"⟩)
          cfgOk (lit "d1") (lit "d2") =
        mailOptions (sanitizedData ⟨lit "Jane Doe", lit "jane@x.com", lit "Hi there"⟩)
          cfgOk (lit "d1") (lit "d2")) :=
  C8_amended (sanitizedData ⟨lit "Jane Doe", lit "jane@x.com", lit "Hi there"⟩)
    cfgOk (lit "d1") (lit "d2") (lit "d1") (lit "d2")

end PortfolioBackend
